import Mathlib

/-!
Verification of the client-side map pipeline in `public/map.js`
(coordinate normalizer, batch loader, icon cache, cluster icons,
layer orchestrator).  Numbers are embedded as rationals, JavaScript
`Map`s as association lists, thrown exceptions as `Option`/flags, and
object identity (for the icon cache and the GeoJSON store) as
explicitly allocated numeric ids.
-/

namespace MapAllData

/-- A coordinate pair `[x, y]` as it appears in GeoJSON coordinate arrays. -/
abbrev Coord := ℚ × ℚ

/-- GeoJSON geometry as handled by `map.js`: `Point`, `Polygon`,
`MultiPolygon`; every other type is carried opaquely (the code passes it
through unexamined). -/
inductive Geometry where
  | point (coordinates : Coord)
  | polygon (coordinates : List (List Coord))
  | multiPolygon (coordinates : List (List (List Coord)))
  | otherType
deriving DecidableEq, Repr

/-- One GeoJSON feature: a geometry plus a property bag. -/
structure Feature where
  geometry : Geometry
  properties : List (String × String) := []
deriving DecidableEq, Repr

/-- A GeoJSON FeatureCollection object, as consumed by the normalizer. -/
structure GeoJsonObj where
  features : List Feature
deriving DecidableEq, Repr

/-- Does the geometry have type `"Point"`?  (`f.geometry.type === "Point"`). -/
def Geometry.isPoint : Geometry → Bool
  | .point _ => true
  | _ => false

/-- Does the geometry have type `"Polygon"` or `"MultiPolygon"`? -/
def Geometry.isPolygonal : Geometry → Bool
  | .polygon _ => true
  | .multiPolygon _ => true
  | _ => false

/-! ## Coordinate Normalizer (`map.js` lines 1089–1208)

`needsCoordinateTransformation` inspects the first coordinate of the
geometry; reading a missing first coordinate throws in JavaScript
(indexing into `undefined`), modelled here by `none`. -/

/-- Source `needsCoordinateTransformation(feature)` (`map.js` 1123–1144):
classify by the first coordinate encountered; `none` models the
TypeError thrown when the coordinate arrays are empty. -/
def needsCoordinateTransformation (f : Feature) : Option Bool :=
  match f.geometry with
  | .point (x, y) => some (decide (x > 180) || decide (y > 90))
  | .multiPolygon coords =>
    match coords.head? with
    | none => none
    | some poly =>
      match poly.head? with
      | none => none
      | some ring =>
        match ring.head? with
        | none => none
        | some (x, y) => some (decide (x > 180) || decide (y > 90))
  | .polygon coords =>
    match coords.head? with
    | none => none
    | some ring =>
      match ring.head? with
      | none => none
      | some (x, y) => some (decide (x > 180) || decide (y > 90))
  | .otherType => some false

/-- The per-pair linear approximation used by `approximateTransform`:
`lon = (x - 500000) / 111320 + 45`, `lat = y / 110540`. -/
def approxCoord (c : Coord) : Coord :=
  ((c.1 - 500000) / 111320 + 45, c.2 / 110540)

/-- Source `approximateTransform(feature)` (`map.js` 1146–1173): apply the
linear approximation to every coordinate pair of the geometry. -/
def approximateTransform (f : Feature) : Feature :=
  match f.geometry with
  | .point c => { f with geometry := .point (approxCoord c) }
  | .multiPolygon coords =>
    { f with geometry :=
        .multiPolygon (coords.map fun polygon => polygon.map fun ring => ring.map approxCoord) }
  | .polygon coords =>
    { f with geometry := .polygon (coords.map fun ring => ring.map approxCoord) }
  | .otherType => f

/-- Transform a ring's coordinates in place, left to right, stopping at
the first throwing `proj4` call (`t = none`); the Boolean records whether
the whole ring was processed.  Coordinates before the throw keep their
transformed values, exactly as the in-place `forEach` mutation does. -/
def transformCoordList (t : Coord → Option Coord) : List Coord → List Coord × Bool
  | [] => ([], true)
  | c :: cs =>
    match t c with
    | none => (c :: cs, false)
    | some c' =>
      let rest := transformCoordList t cs
      (c' :: rest.1, rest.2)

/-- Transform a polygon's rings sequentially; once a ring throws, later
rings are left untouched. -/
def transformRingList (t : Coord → Option Coord) :
    List (List Coord) → List (List Coord) × Bool
  | [] => ([], true)
  | r :: rs =>
    let r' := transformCoordList t r
    if r'.2 then
      let rest := transformRingList t rs
      (r'.1 :: rest.1, rest.2)
    else (r'.1 :: rs, false)

/-- Transform a MultiPolygon's polygons sequentially; once a polygon
throws, later polygons are left untouched. -/
def transformPolyList (t : Coord → Option Coord) :
    List (List (List Coord)) → List (List (List Coord)) × Bool
  | [] => ([], true)
  | p :: ps =>
    let p' := transformRingList t p
    if p'.2 then
      let rest := transformPolyList t ps
      (p'.1 :: rest.1, rest.2)
    else (p'.1 :: ps, false)

/-- Source `transformFeatureGeometry(feature)` (`map.js` 1175–1208): apply the
exact `proj4` transform `t` per vertex inside one `try`/`catch`; a throw
(`t = none`) is caught and the current — possibly partially mutated —
coordinates are returned.  The error is never propagated. -/
def transformFeatureGeometry (t : Coord → Option Coord) (f : Feature) : Feature :=
  match f.geometry with
  | .point c =>
    match t c with
    | some c' => { f with geometry := .point c' }
    | none => f
  | .multiPolygon coords =>
    { f with geometry := .multiPolygon (transformPolyList t coords).1 }
  | .polygon coords =>
    { f with geometry := .polygon (transformRingList t coords).1 }
  | .otherType => f

/-- The body of the `forEach` in `transformSharawaniCoordinates`
(`map.js` 1093–1118): skip features already in WGS84, otherwise use the
exact transform when `proj4` is available and the linear approximation
when it is not.  `none` models the throw out of
`needsCoordinateTransformation`. -/
def transformSharawaniFeature (proj4Available : Bool) (t : Coord → Option Coord)
    (f : Feature) : Option Feature :=
  (needsCoordinateTransformation f).map fun needsTransformation =>
    if !needsTransformation then f
    else if !proj4Available then approximateTransform f
    else transformFeatureGeometry t f

/-- The `forEach` loop of `transformSharawaniCoordinates` over all
features of the (cloned) collection. -/
def transformAllFeatures (proj4Available : Bool) (t : Coord → Option Coord)
    (features : List Feature) : Option (List Feature) :=
  features.mapM (transformSharawaniFeature proj4Available t)

/-- A heap of GeoJSON objects; indices play the role of JavaScript
object references, so aliasing and in-place mutation are observable. -/
structure Store where
  objs : List GeoJsonObj
deriving DecidableEq, Repr

/-- Source `transformSharawaniCoordinates(geojson)` (`map.js` 1089–1121):
`JSON.parse(JSON.stringify(geojson))` allocates a fresh object with the
same value, the `forEach` mutates the clone's features in place, and the
clone is returned.  The input reference is never written. -/
def transformSharawaniCoordinates (proj4Available : Bool) (t : Coord → Option Coord)
    (s : Store) (geojsonRef : ℕ) : Option (Store × ℕ) :=
  let geojson := s.objs.getD geojsonRef ⟨[]⟩
  let transformedRef := s.objs.length
  let s1 : Store := ⟨s.objs ++ [geojson]⟩
  (transformAllFeatures proj4Available t geojson.features).map fun fs =>
    (⟨s1.objs.set transformedRef ⟨fs⟩⟩, transformedRef)

/-! ## Clustering classification (`map.js` 903–919) -/

/-- The explicitly designated point-service categories. -/
def clusteringLayers : List String := ["education", "Fuel Station", "Healthcare"]

/-- Source `shouldUseClustering(layerName, geojson)` (`map.js` 903–919): the
designated layers cluster; otherwise cluster when more than 80% of the
features are points and there are more than 10 features.  Division on ℚ
sends `0 / 0` to `0`, matching `NaN > 0.8 === false` in JavaScript. -/
def shouldUseClustering (layerName : String) (geojson : GeoJsonObj) : Bool :=
  if clusteringLayers.contains layerName then true
  else
    let pointFeatures := geojson.features.filter fun f => f.geometry.isPoint
    let totalFeatures := geojson.features.length
    decide ((pointFeatures.length : ℚ) / (totalFeatures : ℚ) > 8 / 10)
      && decide (totalFeatures > 10)

/-! ## Marker Factory icon cache (`map.js` 1844–1889 and 2008–2050)

Descriptor identity is modelled by allocating a fresh numeric id per
`L.divIcon` construction; two calls return the same instance exactly
when they return the same id. -/

/-- The shared `this._iconCache` plus an allocation counter for fresh
`L.divIcon` instances. -/
structure IconCache where
  cache : List (String × ℕ)
  nextIcon : ℕ
deriving DecidableEq, Repr

/-- The empty `this._iconCache`. -/
def initIconCache : IconCache := ⟨[], 0⟩

/-- The cache-lookup-or-construct body shared verbatim by
`createOptimizedCombinedIcon` and `createOptimizedSharawaniIcon`:
return the cached descriptor when the key is present, otherwise build a
fresh descriptor and store it under the key. -/
def getOrCreateIcon (cacheKey : String) (s : IconCache) : ℕ × IconCache :=
  match s.cache.lookup cacheKey with
  | some icon => (icon, s)
  | none => (s.nextIcon, ⟨s.cache ++ [(cacheKey, s.nextIcon)], s.nextIcon + 1⟩)

/-- The cache key of `createOptimizedCombinedIcon`:
the template string with a hyphen between dataset name and color. -/
def combinedCacheKey (datasetName color : String) : String :=
  datasetName ++ "-" ++ color

/-- The cache key of `createOptimizedSharawaniIcon`. -/
def sharawaniCacheKey (layerName color : String) : String :=
  "sharawani-" ++ layerName ++ "-" ++ color

/-- Source `createOptimizedCombinedIcon(datasetName, color)` (`map.js`
1844–1889), restricted to its cache behaviour. -/
def createOptimizedCombinedIcon (datasetName color : String) (s : IconCache) :
    ℕ × IconCache :=
  getOrCreateIcon (combinedCacheKey datasetName color) s

/-- Source `createOptimizedSharawaniIcon(layerName, color)` (`map.js`
2008–2050), restricted to its cache behaviour. -/
def createOptimizedSharawaniIcon (layerName color : String) (s : IconCache) :
    ℕ × IconCache :=
  getOrCreateIcon (sharawaniCacheKey layerName color) s

/-- An arbitrary interleaved sequence of calls into the shared icon
cache, given by the cache keys they use. -/
def runIconCalls (keys : List String) (s : IconCache) : IconCache :=
  keys.foldl (fun s k => (getOrCreateIcon k s).2) s

/-- Well-formedness of the icon cache: every stored id was allocated
below the counter, and distinct entries have distinct keys and distinct
ids.  Holds for the initial cache and is preserved by every call. -/
def IconCacheWF (s : IconCache) : Prop :=
  (∀ p ∈ s.cache, p.2 < s.nextIcon) ∧
    s.cache.Pairwise fun p q => p.1 ≠ q.1 ∧ p.2 ≠ q.2

/-! ## Cluster glyphs (`map.js` 1891–2006) -/

/-- The observable content of a cluster `L.divIcon`: size bucket class,
pixel diameter, the literal member count shown in the glyph, the fill
color and the dataset icon path. -/
structure ClusterIconSpec where
  sizeClass : String
  iconSize : ℕ
  countLabel : ℕ
  fillColor : String
  iconPath : String
deriving DecidableEq, Repr

/-- The dataset icon table of `createDatasetClusterIcon`. -/
def datasetIconMap : List (String × String) :=
  [("HERA", "/icons/investment.png"),
   ("HERA (Orchards)", "/icons/orchard.png"),
   ("HERA (Wheat)", "/icons/wheat.png"),
   ("Compost", "/icons/compost.png"),
   ("Investment", "/icons/investment.png"),
   ("Investment Short", "/icons/investment.png"),
   ("IQ Air", "/icons/IQ Air.png")]

/-- Source `createDatasetClusterIcon(count, datasetName, color)` (`map.js`
1891–1949): small/45 by default, large/65 when `count > 100`, else
medium/55 when `count > 10`. -/
def createDatasetClusterIcon (count : ℕ) (datasetName color : String) :
    ClusterIconSpec :=
  let datasetIconPath := (datasetIconMap.lookup datasetName).getD "/icons/investment.png"
  let sizeClass := if count > 100 then "large" else if count > 10 then "medium" else "small"
  let iconSize : ℕ := if count > 100 then 65 else if count > 10 then 55 else 45
  { sizeClass := sizeClass, iconSize := iconSize, countLabel := count,
    fillColor := color, iconPath := datasetIconPath }

/-- The layer icon table shared by the Sharawani icon builders. -/
def sharawaniIconMap : List (String × String) :=
  [("Cemetary", "/icons/village.png"),
   ("education", "/icons/education.png"),
   ("Fuel Station", "/icons/fuel-station.png"),
   ("Healthcare", "/icons/healthcare.png"),
   ("Suburbs", "/icons/village.png")]

/-- Source `createSharawaniClusterIcon(count, layerName, color)` (`map.js`
1951–2006): small/40 by default, large/60 when `count > 50`, else
medium/50 when `count > 10`. -/
def createSharawaniClusterIcon (count : ℕ) (layerName color : String) :
    ClusterIconSpec :=
  let layerIconPath := (sharawaniIconMap.lookup layerName).getD "/icons/village.png"
  let sizeClass := if count > 50 then "large" else if count > 10 then "medium" else "small"
  let iconSize : ℕ := if count > 50 then 60 else if count > 10 then 50 else 40
  { sizeClass := sizeClass, iconSize := iconSize, countLabel := count,
    fillColor := color, iconPath := layerIconPath }

/-! ## Batch Scheduler (`processBatch` inside `loadCombinedDataset`,
`map.js` 1545–1596)

Each recursive step processes `dataPoints[startIndex .. endIndex)` with
`endIndex = min(startIndex + batchSize, dataPoints.length)` and adds
exactly that slice of markers to the cluster group, then schedules the
next step at `endIndex`.  The structural fuel argument
(`dataPoints.length + 1` at the top call) only bounds the recursion
depth; with a positive batch size it never runs out. -/

/-- One `processBatch(startIndex)` chain, returning the successive
slices handed to `clusterGroup.addLayers`. -/
def processBatchAux (batchSize : ℕ) (dataPoints : List α) :
    ℕ → ℕ → List (List α)
  | _, 0 => []
  | startIndex, fuel + 1 =>
    let endIndex := min (startIndex + batchSize) dataPoints.length
    let chunk := (dataPoints.drop startIndex).take (endIndex - startIndex)
    if endIndex < dataPoints.length then
      chunk :: processBatchAux batchSize dataPoints endIndex fuel
    else
      [chunk]

/-- The full batch run started by `processBatch(0)`. -/
def processBatch (batchSize : ℕ) (dataPoints : List α) : List (List α) :=
  processBatchAux batchSize dataPoints 0 (dataPoints.length + 1)

/-! ## Layer Orchestrator (`map.js` 802–901, 921–1087, 1476–1607)

JavaScript `Map`s become association lists, Leaflet layer groups become
numeric ids allocated from a counter, `map.hasLayer`/`addTo`/
`removeLayer` become membership in `mapAttached`, and each `fetch` on
the fresh-load path bumps `fetchCount`.  Batched loads are modelled at
their completed final state (all chunks attached). -/

/-- Source `Map.prototype.set`: replace the binding when the key is present,
append it otherwise. -/
def mapSet [BEq κ] (m : List (κ × ν)) (k : κ) (v : ν) : List (κ × ν) :=
  if (m.lookup k).isSome then
    m.map fun p => if p.1 == k then (k, v) else p
  else m ++ [(k, v)]

/-- One data point of a pre-flattened combined dataset
(`/api/combined-data` rows). -/
structure DataPoint where
  name : String := ""
  latitude : ℚ := 0
  longitude : ℚ := 0
deriving DecidableEq, Repr

/-- The orchestrator-visible state of the map page: the four layer
registries, which groups are attached to the map, how many markers each
group holds, the group-allocation counter, and how many dataset fetches
have been issued. -/
structure MapState where
  loadedLayers : List (String × GeoJsonObj)
  layerGroups : List (String × ℕ)
  sharawaniLayers : List (String × ℕ)
  combinedLayers : List (String × ℕ)
  mapAttached : List ℕ
  groupMarkers : List (ℕ × ℕ)
  nextGroup : ℕ
  fetchCount : ℕ
deriving DecidableEq, Repr

/-- The page state before any dataset is loaded. -/
def initMapState : MapState := ⟨[], [], [], [], [], [], 0, 0⟩

/-- Source `showLayer(layerName)` (`map.js` 1476–1481): re-attach the stored
group when it exists and is not already on the map. -/
def showLayer (layerName : String) (s : MapState) : MapState :=
  match s.layerGroups.lookup layerName with
  | some g => if g ∈ s.mapAttached then s
              else { s with mapAttached := g :: s.mapAttached }
  | none => s

/-- Source `hideLayer(layerName)` (`map.js` 1483–1488): detach the stored group
when it exists and is on the map; otherwise do nothing. -/
def hideLayer (layerName : String) (s : MapState) : MapState :=
  match s.layerGroups.lookup layerName with
  | some g => if g ∈ s.mapAttached then
                { s with mapAttached := s.mapAttached.erase g }
              else s
  | none => s

/-- Source `showSharawaniLayer(layerName)` (`map.js` 1490–1495). -/
def showSharawaniLayer (layerName : String) (s : MapState) : MapState :=
  match s.sharawaniLayers.lookup layerName with
  | some g => if g ∈ s.mapAttached then s
              else { s with mapAttached := g :: s.mapAttached }
  | none => s

/-- Source `hideSharawaniLayer(layerName)` (`map.js` 1497–1502). -/
def hideSharawaniLayer (layerName : String) (s : MapState) : MapState :=
  match s.sharawaniLayers.lookup layerName with
  | some g => if g ∈ s.mapAttached then
                { s with mapAttached := s.mapAttached.erase g }
              else s
  | none => s

/-- Source `hideCombinedDataset(datasetName)` (`map.js` 1602–1607). -/
def hideCombinedDataset (datasetName : String) (s : MapState) : MapState :=
  match s.combinedLayers.lookup datasetName with
  | some g => if g ∈ s.mapAttached then
                { s with mapAttached := s.mapAttached.erase g }
              else s
  | none => s

/-- Source `loadLayer(layerName)` (`map.js` 802–849), successful-fetch path:
if the layer was already loaded, only `showLayer` runs; otherwise the
GeoJSON is fetched, one group is built and attached, and both registries
are populated. -/
def loadLayer (layerName : String) (geojson : GeoJsonObj) (s : MapState) : MapState :=
  if (s.loadedLayers.lookup layerName).isSome then
    showLayer layerName s
  else
    let s1 := { s with fetchCount := s.fetchCount + 1 }
    let g := s1.nextGroup
    { s1 with
      nextGroup := g + 1,
      loadedLayers := mapSet s1.loadedLayers layerName geojson,
      layerGroups := mapSet s1.layerGroups layerName g,
      groupMarkers := mapSet s1.groupMarkers g geojson.features.length,
      mapAttached := g :: s1.mapAttached }

/-- Source `loadSharawaniWithClustering(layerName, geojson, layerColor)`
(`map.js` 921–1045), at its completed final state: the cluster group is
created unconditionally, but it is attached and registered in
`sharawaniLayers` only when the collection has at least one Point
feature; Polygon/MultiPolygon features go to a separate attached layer
that is never registered. -/
def loadSharawaniWithClustering (layerName : String) (fs : List Feature)
    (s : MapState) : MapState :=
  let clusterG := s.nextGroup
  let s1 := { s with nextGroup := clusterG + 1 }
  let pointFeatures := fs.filter fun f => f.geometry.isPoint
  let polygonFeatures := fs.filter fun f => f.geometry.isPolygonal
  let s2 :=
    if 0 < pointFeatures.length then
      { s1 with
        groupMarkers := mapSet s1.groupMarkers clusterG pointFeatures.length,
        mapAttached := clusterG :: s1.mapAttached,
        sharawaniLayers := mapSet s1.sharawaniLayers layerName clusterG }
    else s1
  if 0 < polygonFeatures.length then
    let polyG := s2.nextGroup
    { s2 with
      nextGroup := polyG + 1,
      groupMarkers := mapSet s2.groupMarkers polyG polygonFeatures.length,
      mapAttached := polyG :: s2.mapAttached }
  else s2

/-- Source `loadSharawaniAsRegularLayer(layerName, geojson, layerColor)`
(`map.js` 1047–1087): build one plain group, register it and attach it. -/
def loadSharawaniAsRegularLayer (layerName : String) (fs : List Feature)
    (s : MapState) : MapState :=
  let g := s.nextGroup
  { s with
    nextGroup := g + 1,
    groupMarkers := mapSet s.groupMarkers g fs.length,
    sharawaniLayers := mapSet s.sharawaniLayers layerName g,
    mapAttached := g :: s.mapAttached }

/-- Source `loadSharawaniLayer(layerName)` (`map.js` 851–901), successful-fetch
path: guard on `sharawaniLayers`, fetch, transform the coordinates (a
throw is caught by the surrounding `try`, leaving only the fetch
recorded), then dispatch on `shouldUseClustering`. -/
def loadSharawaniLayer (proj4Available : Bool) (t : Coord → Option Coord)
    (layerName : String) (geojson : GeoJsonObj) (s : MapState) : MapState :=
  if (s.sharawaniLayers.lookup layerName).isSome then
    showSharawaniLayer layerName s
  else
    let s1 := { s with fetchCount := s.fetchCount + 1 }
    match transformAllFeatures proj4Available t geojson.features with
    | none => s1
    | some fs =>
      if shouldUseClustering layerName ⟨fs⟩ then
        loadSharawaniWithClustering layerName fs s1
      else
        loadSharawaniAsRegularLayer layerName fs s1

/-- Source `loadCombinedDataset(datasetName, dataPoints)` (`map.js` 1504–1600),
at the completed final state of its `processBatch` chain: a fresh
cluster group is always created, filled with the markers of every chunk,
attached to the map, and stored — overwriting any previous binding.
There is no already-loaded guard. -/
def loadCombinedDataset (datasetName : String) (dataPoints : List DataPoint)
    (s : MapState) : MapState :=
  let clusterG := s.nextGroup
  let markerCount := ((processBatch 100 dataPoints).map List.length).sum
  { s with
    nextGroup := clusterG + 1,
    groupMarkers := mapSet s.groupMarkers clusterG markerCount,
    mapAttached := clusterG :: s.mapAttached,
    combinedLayers := mapSet s.combinedLayers datasetName clusterG }

/-! ## Helper lemmas about association-list lookup -/

theorem lookup_append_some {κ ν : Type} [BEq κ] {l₁ l₂ : List (κ × ν)} {k : κ} {v : ν}
    (h : l₁.lookup k = some v) : (l₁ ++ l₂).lookup k = some v := by
  induction l₁ with
  | nil => simp [List.lookup] at h
  | cons p t ih =>
    obtain ⟨a, b⟩ := p
    simp only [List.cons_append, List.lookup] at h ⊢
    cases hk : (k == a) with
    | true => rw [hk] at h; simpa using h
    | false => rw [hk] at h; exact ih h

theorem lookup_append_none {κ ν : Type} [BEq κ] {l₁ : List (κ × ν)} (l₂ : List (κ × ν))
    {k : κ} (h : l₁.lookup k = none) : (l₁ ++ l₂).lookup k = l₂.lookup k := by
  induction l₁ with
  | nil => simp
  | cons p t ih =>
    obtain ⟨a, b⟩ := p
    simp only [List.cons_append, List.lookup] at h ⊢
    cases hk : (k == a) with
    | true => rw [hk] at h; simp at h
    | false => rw [hk] at h; exact ih h

theorem lookup_mem {κ ν : Type} [BEq κ] [LawfulBEq κ] {l : List (κ × ν)} {k : κ} {v : ν}
    (h : l.lookup k = some v) : (k, v) ∈ l := by
  induction l with
  | nil => simp [List.lookup] at h
  | cons p t ih =>
    obtain ⟨a, b⟩ := p
    simp only [List.lookup] at h
    cases hk : (k == a) with
    | true =>
      rw [hk] at h
      simp only [Option.some.injEq] at h
      have : k = a := by simpa using hk
      subst this; subst h
      exact List.mem_cons_self _ _
    | false =>
      rw [hk] at h
      exact List.mem_cons_of_mem _ (ih h)

theorem lookup_none_forall {κ ν : Type} [BEq κ] [LawfulBEq κ] {l : List (κ × ν)} {k : κ}
    (h : l.lookup k = none) : ∀ p ∈ l, p.1 ≠ k := by
  induction l with
  | nil => simp
  | cons p t ih =>
    obtain ⟨a, b⟩ := p
    simp only [List.lookup] at h
    cases hk : (k == a) with
    | true => rw [hk] at h; simp at h
    | false =>
      rw [hk] at h
      intro q hq
      rcases List.mem_cons.mp hq with hq | hq
      · subst hq
        intro hak
        simp only at hak
        rw [hak] at hk
        simp at hk
      · exact ih h q hq

theorem lookup_singleton_self {κ ν : Type} [BEq κ] [LawfulBEq κ] (k : κ) (v : ν) :
    ([(k, v)] : List (κ × ν)).lookup k = some v := by
  simp [List.lookup]

theorem lookup_map_replace {κ ν : Type} [BEq κ] [LawfulBEq κ]
    (l : List (κ × ν)) (k : κ) (v : ν) :
    (l.map fun p => if p.1 == k then (k, v) else p).lookup k
      = (l.lookup k).map fun _ => v := by
  induction l with
  | nil => simp [List.lookup]
  | cons p t ih =>
    obtain ⟨a, b⟩ := p
    by_cases hak : a = k
    · subst hak
      rw [List.map_cons, if_pos (by simp)]
      simp [List.lookup, ih]
    · have h₂ : (k == a) = false := by simpa using Ne.symm hak
      rw [List.map_cons, if_neg (by simpa using hak)]
      simp only [List.lookup, h₂]
      exact ih

theorem lookup_mapSet_self {κ ν : Type} [BEq κ] [LawfulBEq κ]
    (m : List (κ × ν)) (k : κ) (v : ν) : (mapSet m k v).lookup k = some v := by
  unfold mapSet
  by_cases h : (m.lookup k).isSome
  · rw [if_pos h, lookup_map_replace]
    obtain ⟨v₀, hv₀⟩ := Option.isSome_iff_exists.mp h
    rw [hv₀]; rfl
  · rw [if_neg h]
    have hnone : m.lookup k = none := Option.not_isSome_iff_eq_none.mp h
    rw [lookup_append_none _ hnone, lookup_singleton_self]

theorem set_append_length {γ : Type} (l : List γ) (a b : γ) :
    (l ++ [a]).set l.length b = l ++ [b] := by
  induction l with
  | nil => rfl
  | cons x t ih => simp [List.set, ih]

/-! ## Helper lemmas about the batch loop -/

theorem processBatchAux_flatten {α : Type} {batchSize : ℕ} (hb : 0 < batchSize)
    (dataPoints : List α) :
    ∀ (fuel startIndex : ℕ), dataPoints.length - startIndex < fuel →
      (processBatchAux batchSize dataPoints startIndex fuel).flatten
        = dataPoints.drop startIndex := by
  intro fuel
  induction fuel with
  | zero => intro start h; omega
  | succ f ih =>
    intro start h
    simp only [processBatchAux]
    by_cases hlt : min (start + batchSize) dataPoints.length < dataPoints.length
    · have hmin : min (start + batchSize) dataPoints.length = start + batchSize := by omega
      rw [if_pos hlt, List.flatten_cons, ih _ (by omega)]
      rw [hmin, Nat.add_sub_cancel_left]
      have hdd : dataPoints.drop (start + batchSize)
          = (dataPoints.drop start).drop batchSize := by
        rw [List.drop_drop, Nat.add_comm]
      rw [hdd, List.take_append_drop]
    · have hmin : min (start + batchSize) dataPoints.length = dataPoints.length := by omega
      rw [if_neg hlt, hmin]
      have hlen : (dataPoints.drop start).length = dataPoints.length - start :=
        List.length_drop start dataPoints
      rw [List.flatten, List.flatten, List.append_nil,
        List.take_of_length_le (le_of_eq hlen)]

theorem processBatch_flatten {α : Type} {batchSize : ℕ} (hb : 0 < batchSize)
    (dataPoints : List α) :
    (processBatch batchSize dataPoints).flatten = dataPoints := by
  unfold processBatch
  rw [processBatchAux_flatten hb dataPoints _ 0 (by omega), List.drop_zero]

/-! ## Helper lemmas about the icon cache -/

theorem getOrCreateIcon_lookup_self (k : String) (s : IconCache) :
    ((getOrCreateIcon k s).2).cache.lookup k = some (getOrCreateIcon k s).1 := by
  unfold getOrCreateIcon
  cases h : s.cache.lookup k with
  | some i => simpa using h
  | none =>
    have h1 : (s.cache ++ [(k, s.nextIcon)]).lookup k = some s.nextIcon := by
      rw [lookup_append_none _ h, lookup_singleton_self]
    simpa using h1

theorem getOrCreateIcon_lookup_persist {k : String} {i : ℕ} {s : IconCache}
    (k' : String) (h : s.cache.lookup k = some i) :
    ((getOrCreateIcon k' s).2).cache.lookup k = some i := by
  unfold getOrCreateIcon
  cases h' : s.cache.lookup k' with
  | some j => simpa using h
  | none => simpa using lookup_append_some h

theorem runIconCalls_lookup_persist {k : String} {i : ℕ}
    (ks : List String) {s : IconCache} (h : s.cache.lookup k = some i) :
    (runIconCalls ks s).cache.lookup k = some i := by
  induction ks generalizing s with
  | nil => simpa [runIconCalls] using h
  | cons k' t ih =>
    simp only [runIconCalls, List.foldl_cons]
    exact ih (getOrCreateIcon_lookup_persist k' h)

theorem initIconCache_WF : IconCacheWF initIconCache := by
  constructor
  · intro p hp; simp [initIconCache] at hp
  · simp [initIconCache]

theorem getOrCreateIcon_WF {s : IconCache} (hWF : IconCacheWF s) (k : String) :
    IconCacheWF (getOrCreateIcon k s).2 := by
  unfold getOrCreateIcon
  cases h : s.cache.lookup k with
  | some i => simpa using hWF
  | none =>
    obtain ⟨hbound, hpair⟩ := hWF
    refine ⟨?_, ?_⟩
    · intro p hp
      rcases List.mem_append.mp hp with hp | hp
      · exact Nat.lt_succ_of_lt (hbound p hp)
      · simp only [List.mem_singleton] at hp
        subst hp; exact Nat.lt_succ_self _
    · rw [List.pairwise_append]
      refine ⟨hpair, List.pairwise_singleton _ _, ?_⟩
      intro p hp q hq
      simp only [List.mem_singleton] at hq
      subst hq
      exact ⟨lookup_none_forall h p hp, Nat.ne_of_lt (hbound p hp)⟩

theorem runIconCalls_WF (ks : List String) {s : IconCache} (hWF : IconCacheWF s) :
    IconCacheWF (runIconCalls ks s) := by
  induction ks generalizing s with
  | nil => simpa [runIconCalls] using hWF
  | cons k t ih =>
    simp only [runIconCalls, List.foldl_cons]
    exact ih (getOrCreateIcon_WF hWF k)

theorem lookup_lt_nextIcon {s : IconCache} (hWF : IconCacheWF s) {k : String} {i : ℕ}
    (h : s.cache.lookup k = some i) : i < s.nextIcon :=
  hWF.1 (k, i) (lookup_mem h)

theorem lookup_icon_inj {s : IconCache} (hWF : IconCacheWF s) {k₁ k₂ : String}
    {i₁ i₂ : ℕ} (h₁ : s.cache.lookup k₁ = some i₁) (h₂ : s.cache.lookup k₂ = some i₂)
    (hk : k₁ ≠ k₂) : i₁ ≠ i₂ := by
  have hm₁ := lookup_mem h₁
  have hm₂ := lookup_mem h₂
  have hsymm : Symmetric fun p q : String × ℕ => p.1 ≠ q.1 ∧ p.2 ≠ q.2 :=
    fun p q h => ⟨h.1.symm, h.2.symm⟩
  have hne : ((k₁, i₁) : String × ℕ) ≠ (k₂, i₂) := by
    intro hcontra
    exact hk (congrArg Prod.fst hcontra)
  exact (hWF.2.forall hsymm hm₁ hm₂ hne).2

/-! ## Helper lemmas about the normalizer -/

theorem decide_or_eq (p q : Prop) [Decidable p] [Decidable q] :
    decide (p ∨ q) = (decide p || decide q) := by
  by_cases hp : p <;> by_cases hq : q <;> simp [hp, hq]

theorem needs_point (c : Coord) (props : List (String × String)) :
    needsCoordinateTransformation ⟨.point c, props⟩
      = some (decide (c.1 > 180) || decide (c.2 > 90)) := by
  obtain ⟨x, y⟩ := c
  rfl

theorem transform_dispatch (p4 : Bool) (t : Coord → Option Coord) (f : Feature) (b : Bool)
    (h : needsCoordinateTransformation f = some b) :
    transformSharawaniFeature p4 t f
      = some (if b then (if p4 then transformFeatureGeometry t f
                         else approximateTransform f) else f) := by
  unfold transformSharawaniFeature
  rw [h, Option.map_some']
  cases b <;> cases p4 <;> simp

/-- A concrete exact transform for witnesses: `proj4` succeeding with the
regional linear formula below a magnitude bound and throwing above it. -/
def proj4Demo : Coord → Option Coord := fun c =>
  if c.1 ≥ 1000000000 then none else some (approxCoord c)

/-- A concrete always-throwing exact transform for witnesses. -/
def tNone : Coord → Option Coord := fun _ => none

/-! ## Claim theorems -/

/-- Claim C1: a Point with `x ≤ 180` and `y ≤ 90` is classified as
geographic and passed through unchanged; a pair with `x > 180` or
`y > 90` is classified as non-geographic and the whole geometry is
transformed via the exact `proj4` path or the linear-approximation
fallback; for Polygon and MultiPolygon the first coordinate encountered
decides, and the decision applies to the whole geometry. -/
theorem projection_classification :
    (∀ (c : Coord) (props : List (String × String)),
        needsCoordinateTransformation ⟨.point c, props⟩
          = some (decide (c.1 > 180 ∨ c.2 > 90)))
  ∧ (∀ (p4 : Bool) (t : Coord → Option Coord) (f : Feature) (c : Coord),
        f.geometry = .point c → c.1 ≤ 180 → c.2 ≤ 90 →
        transformSharawaniFeature p4 t f = some f)
  ∧ (∀ (p4 : Bool) (t : Coord → Option Coord) (f : Feature) (c : Coord),
        f.geometry = .point c → (c.1 > 180 ∨ c.2 > 90) →
        transformSharawaniFeature p4 t f
          = some (if p4 then transformFeatureGeometry t f
                  else approximateTransform f))
  ∧ (∀ (f : Feature) (rings : List (List Coord)) (r : List Coord) (c : Coord),
        f.geometry = .polygon rings → rings.head? = some r → r.head? = some c →
        needsCoordinateTransformation f = some (decide (c.1 > 180 ∨ c.2 > 90)))
  ∧ (∀ (f : Feature) (polys : List (List (List Coord))) (p : List (List Coord))
        (r : List Coord) (c : Coord),
        f.geometry = .multiPolygon polys → polys.head? = some p →
        p.head? = some r → r.head? = some c →
        needsCoordinateTransformation f = some (decide (c.1 > 180 ∨ c.2 > 90)))
  ∧ (∀ (p4 : Bool) (t : Coord → Option Coord) (f : Feature) (b : Bool),
        needsCoordinateTransformation f = some b →
        transformSharawaniFeature p4 t f
          = some (if b then (if p4 then transformFeatureGeometry t f
                             else approximateTransform f) else f)) := by
  refine ⟨?_, ?_, ?_, ?_, ?_, ?_⟩
  · intro c props
    rw [needs_point, decide_or_eq]
  · intro p4 t f c hgeom hx hy
    have hb : needsCoordinateTransformation f = some false := by
      obtain ⟨g, props⟩ := f
      simp only at hgeom
      subst hgeom
      rw [needs_point, decide_eq_false (not_lt.mpr hx), decide_eq_false (not_lt.mpr hy)]
      rfl
    rw [transform_dispatch p4 t f false hb]
    simp
  · intro p4 t f c hgeom hxy
    have hb : needsCoordinateTransformation f = some true := by
      obtain ⟨g, props⟩ := f
      simp only at hgeom
      subst hgeom
      rw [needs_point]
      rcases hxy with hx | hy
      · rw [decide_eq_true hx]; rfl
      · rw [decide_eq_true hy, Bool.or_true]
    rw [transform_dispatch p4 t f true hb]
    simp
  · intro f rings r c hgeom h1 h2
    obtain ⟨g, props⟩ := f
    simp only at hgeom
    subst hgeom
    obtain ⟨x, y⟩ := c
    simp [needsCoordinateTransformation, h1, h2, decide_or_eq]
  · intro f polys p r c hgeom h1 h2 h3
    obtain ⟨g, props⟩ := f
    simp only at hgeom
    subst hgeom
    obtain ⟨x, y⟩ := c
    simp [needsCoordinateTransformation, h1, h2, h3, decide_or_eq]
  · exact transform_dispatch

/-- Witness for C1 at concrete inputs: the geographic pair `(45, 33)` is
passed through, the projected pair `(500000, 3905000)` takes the
fallback path when `proj4` is unavailable. -/
theorem projection_classification_witness :
    transformSharawaniFeature true proj4Demo ⟨.point (45, 33), []⟩
        = some ⟨.point (45, 33), []⟩
  ∧ transformSharawaniFeature false proj4Demo ⟨.point (500000, 3905000), []⟩
        = some (approximateTransform ⟨.point (500000, 3905000), []⟩) := by
  constructor
  · exact projection_classification.2.1 true proj4Demo ⟨.point (45, 33), []⟩ (45, 33)
      rfl (by norm_num) (by norm_num)
  · have h := projection_classification.2.2.1 false proj4Demo
      ⟨.point (500000, 3905000), []⟩ (500000, 3905000) rfl (by norm_num)
    simpa using h

/-- Claim C5: with no exact transform available the fallback applies
`lon = (x − 500000)/111320 + 45`, `lat = y/110540` to every coordinate
pair of the geometry; for a Point at `[500000, 3905000]` the result lies
in `[40, 50] × [30, 40]`. -/
theorem approximate_fallback :
    (∀ (c : Coord), approxCoord c = ((c.1 - 500000) / 111320 + 45, c.2 / 110540))
  ∧ (∀ (f : Feature) (c : Coord), f.geometry = .point c →
        approximateTransform f = { f with geometry := .point (approxCoord c) })
  ∧ (∀ (f : Feature) (rings : List (List Coord)), f.geometry = .polygon rings →
        approximateTransform f
          = { f with geometry := .polygon (rings.map fun r => r.map approxCoord) })
  ∧ (∀ (f : Feature) (polys : List (List (List Coord))),
        f.geometry = .multiPolygon polys →
        approximateTransform f
          = { f with geometry :=
                .multiPolygon (polys.map fun p => p.map fun r => r.map approxCoord) })
  ∧ (∀ (t : Coord → Option Coord) (f : Feature),
        needsCoordinateTransformation f = some true →
        transformSharawaniFeature false t f = some (approximateTransform f))
  ∧ (∀ (t : Coord → Option Coord),
        transformSharawaniFeature false t ⟨.point (500000, 3905000), []⟩
          = some ⟨.point (approxCoord (500000, 3905000)), []⟩)
  ∧ (40 ≤ (approxCoord (500000, 3905000)).1 ∧ (approxCoord (500000, 3905000)).1 ≤ 50
      ∧ 30 ≤ (approxCoord (500000, 3905000)).2 ∧ (approxCoord (500000, 3905000)).2 ≤ 40) := by
  refine ⟨fun c => rfl, ?_, ?_, ?_, ?_, ?_, ?_⟩
  · intro f c hgeom
    obtain ⟨g, props⟩ := f
    simp only at hgeom
    subst hgeom
    rfl
  · intro f rings hgeom
    obtain ⟨g, props⟩ := f
    simp only at hgeom
    subst hgeom
    rfl
  · intro f polys hgeom
    obtain ⟨g, props⟩ := f
    simp only at hgeom
    subst hgeom
    rfl
  · intro t f hb
    rw [transform_dispatch false t f true hb]
    simp
  · intro t
    have hb : needsCoordinateTransformation ⟨.point (500000, 3905000), []⟩ = some true := by
      decide
    rw [transform_dispatch false t _ true hb]
    simp [approximateTransform]
  · refine ⟨by norm_num [approxCoord], by norm_num [approxCoord],
      by norm_num [approxCoord], by norm_num [approxCoord]⟩

/-- Witness for C5: the fallback clause applied to the concrete
projected Point of the scenario. -/
theorem approximate_fallback_witness :
    transformSharawaniFeature false tNone ⟨.point (500000, 3905000), []⟩
      = some (approximateTransform ⟨.point (500000, 3905000), []⟩) :=
  approximate_fallback.2.2.2.2.1 tNone ⟨.point (500000, 3905000), []⟩ (by decide)

/-- The concrete Polygon on which the exact transform succeeds for the
first vertex and then throws: ring `[[600000, 3900000], [10^9, 10^9]]`. -/
def c4Feature : Feature :=
  ⟨.polygon [[(600000, 3900000), (1000000000, 1000000000)]], []⟩

/-- Claim C4 (code bug): when the exact transform throws mid-traversal,
the vertices already visited keep their transformed values — the
geometry is NOT left unchanged, although the error is indeed caught and
never propagated (the call still returns a value through `some`). -/
theorem exact_transform_partial_mutation :
    transformFeatureGeometry proj4Demo c4Feature
      = ⟨.polygon [[approxCoord (600000, 3900000), (1000000000, 1000000000)]], []⟩
  ∧ transformFeatureGeometry proj4Demo c4Feature ≠ c4Feature
  ∧ transformSharawaniFeature true proj4Demo c4Feature
      = some (transformFeatureGeometry proj4Demo c4Feature) := by
  have h1 : proj4Demo (600000, 3900000) = some (approxCoord (600000, 3900000)) := by
    norm_num [proj4Demo]
  have h2 : proj4Demo (1000000000, 1000000000) = none := by
    norm_num [proj4Demo]
  have hA : transformFeatureGeometry proj4Demo c4Feature
      = ⟨.polygon [[approxCoord (600000, 3900000), (1000000000, 1000000000)]], []⟩ := by
    simp [c4Feature, transformFeatureGeometry, transformRingList, transformCoordList, h1, h2]
  refine ⟨hA, ?_, ?_⟩
  · rw [hA]
    intro hcontra
    simp only [c4Feature, approxCoord, Feature.mk.injEq, Geometry.polygon.injEq,
      List.cons.injEq, Prod.mk.injEq, and_true] at hcontra
    norm_num at hcontra
  · have hb : needsCoordinateTransformation c4Feature = some true := by decide
    rw [transform_dispatch true proj4Demo c4Feature true hb]
    simp

/-- Claim C7: `shouldUseClustering` is true exactly for the three
designated point-service layers, or when strictly more than 80% of the
features are Points and there are strictly more than 10 features. -/
theorem clustering_rule :
    ∀ (layerName : String) (geojson : GeoJsonObj),
      shouldUseClustering layerName geojson = true ↔
        ((layerName = "education" ∨ layerName = "Fuel Station" ∨ layerName = "Healthcare")
          ∨ (((geojson.features.filter fun f => f.geometry.isPoint).length : ℚ)
                / (geojson.features.length : ℚ) > 8 / 10
              ∧ geojson.features.length > 10)) := by
  intro layerName geojson
  unfold shouldUseClustering
  have hc : clusteringLayers.contains layerName = true ↔
      (layerName = "education" ∨ layerName = "Fuel Station" ∨ layerName = "Healthcare") := by
    simp [clusteringLayers]
  by_cases hA : clusteringLayers.contains layerName = true
  · rw [if_pos hA]
    constructor
    · intro _
      exact Or.inl (hc.mp hA)
    · intro _
      rfl
  · rw [if_neg hA]
    have hnotmem : ¬(layerName = "education" ∨ layerName = "Fuel Station"
        ∨ layerName = "Healthcare") := fun h => hA (hc.mpr h)
    simp only [Bool.and_eq_true, decide_eq_true_eq]
    rw [or_iff_right hnotmem]

/-- Claim C8: the cluster glyph size bucket is a pure function of the
member count with tiers ≤10 / 11–100 / >100 for general datasets and
≤10 / 11–50 / >50 for Sharawani service points, and the glyph shows the
literal member count with the dataset's configured fill color. -/
theorem cluster_glyph_spec :
    ∀ (n : ℕ) (d c : String),
      ((createDatasetClusterIcon n d c).sizeClass
          = if n ≤ 10 then "small" else if n ≤ 100 then "medium" else "large")
      ∧ (createDatasetClusterIcon n d c).countLabel = n
      ∧ (createDatasetClusterIcon n d c).fillColor = c
      ∧ ((createSharawaniClusterIcon n d c).sizeClass
          = if n ≤ 10 then "small" else if n ≤ 50 then "medium" else "large")
      ∧ (createSharawaniClusterIcon n d c).countLabel = n
      ∧ (createSharawaniClusterIcon n d c).fillColor = c := by
  intro n d c
  refine ⟨?_, rfl, rfl, ?_, rfl, rfl⟩
  · simp only [createDatasetClusterIcon]
    split_ifs <;> first | rfl | omega
  · simp only [createSharawaniClusterIcon]
    split_ifs <;> first | rfl | omega

/-- The chunk-size arithmetic of `processBatchAux`, on lengths alone:
the list of `endIndex - startIndex` values of the successive batches. -/
def chunkLens (batchSize n : ℕ) : ℕ → ℕ → List ℕ
  | _, 0 => []
  | startIndex, fuel + 1 =>
    let endIndex := min (startIndex + batchSize) n
    if endIndex < n then (endIndex - startIndex) :: chunkLens batchSize n endIndex fuel
    else [endIndex - startIndex]

theorem processBatchAux_map_length {α : Type} (batchSize : ℕ) (pts : List α) :
    ∀ (fuel startIndex : ℕ),
      (processBatchAux batchSize pts startIndex fuel).map List.length
        = chunkLens batchSize pts.length startIndex fuel := by
  intro fuel
  induction fuel with
  | zero => intro start; rfl
  | succ f ih =>
    intro start
    simp only [processBatchAux, chunkLens]
    by_cases hlt : min (start + batchSize) pts.length < pts.length
    · rw [if_pos hlt, if_pos hlt, List.map_cons, ih]
      congr 1
      rw [List.length_take, List.length_drop]
      omega
    · rw [if_neg hlt, if_neg hlt, List.map_cons, List.map_nil]
      congr 2
      rw [List.length_take, List.length_drop]
      omega

/-- Claim C2: the batch loop adds every data point exactly once, in
index order, chunk by chunk; 2,458 points in chunks of 100 give 24 full
chunks plus one partial chunk of 58 — 25 chunks and 2,458 markers. -/
theorem batch_completeness :
    (∀ (α : Type) (dataPoints : List α) (batchSize : ℕ), 0 < batchSize →
        (processBatch batchSize dataPoints).flatten = dataPoints)
  ∧ (processBatch 100 (List.range 2458)).length = 25
  ∧ (processBatch 100 (List.range 2458)).map List.length
      = List.replicate 24 100 ++ [58]
  ∧ ((processBatch 100 (List.range 2458)).flatten).length = 2458 := by
  have hmap : (processBatch 100 (List.range 2458)).map List.length
      = chunkLens 100 2458 0 (2458 + 1) := by
    unfold processBatch
    rw [List.length_range]
    have h := processBatchAux_map_length 100 (List.range 2458) (2458 + 1) 0
    rw [List.length_range] at h
    exact h
  refine ⟨fun α pts b hb => processBatch_flatten hb pts, ?_, ?_, ?_⟩
  · have h2 := congrArg List.length hmap
    rw [List.length_map] at h2
    rw [h2]
    decide
  · rw [hmap]
    decide
  · rw [processBatch_flatten (by norm_num) (List.range 2458)]
    exact List.length_range 2458

/-- Witness for C2 at a concrete run whose size is not a multiple of the
chunk size. -/
theorem batch_completeness_witness :
    (processBatch 2 ([10, 20, 30] : List ℕ)).flatten = [10, 20, 30] :=
  batch_completeness.1 ℕ [10, 20, 30] 2 (by decide)

/-! ## Icon cache claim -/

theorem getOrCreateIcon_of_lookup {k : String} {s : IconCache} {i : ℕ}
    (h : s.cache.lookup k = some i) : getOrCreateIcon k s = (i, s) := by
  unfold getOrCreateIcon
  rw [h]

theorem getOrCreateIcon_fst_of_none {k : String} {s : IconCache}
    (h : s.cache.lookup k = none) : (getOrCreateIcon k s).1 = s.nextIcon := by
  unfold getOrCreateIcon
  rw [h]

theorem getOrCreateIcon_stable (k : String) (s : IconCache) (ks : List String) :
    (getOrCreateIcon k (runIconCalls ks (getOrCreateIcon k s).2)).1
      = (getOrCreateIcon k s).1 := by
  rw [getOrCreateIcon_of_lookup
    (runIconCalls_lookup_persist ks (getOrCreateIcon_lookup_self k s))]

theorem getOrCreateIcon_distinct {s : IconCache} (hWF : IconCacheWF s)
    {k₁ k₂ : String} (hk : k₁ ≠ k₂) (ks : List String) :
    (getOrCreateIcon k₂ (runIconCalls ks (getOrCreateIcon k₁ s).2)).1
      ≠ (getOrCreateIcon k₁ s).1 := by
  have hl₁ : ((getOrCreateIcon k₁ s).2).cache.lookup k₁ = some (getOrCreateIcon k₁ s).1 :=
    getOrCreateIcon_lookup_self k₁ s
  have hWF₁ : IconCacheWF (getOrCreateIcon k₁ s).2 := getOrCreateIcon_WF hWF k₁
  have hl₂ : (runIconCalls ks (getOrCreateIcon k₁ s).2).cache.lookup k₁
      = some (getOrCreateIcon k₁ s).1 := runIconCalls_lookup_persist ks hl₁
  have hWF₂ : IconCacheWF (runIconCalls ks (getOrCreateIcon k₁ s).2) :=
    runIconCalls_WF ks hWF₁
  cases h : (runIconCalls ks (getOrCreateIcon k₁ s).2).cache.lookup k₂ with
  | some j =>
    rw [getOrCreateIcon_of_lookup h]
    exact lookup_icon_inj hWF₂ h hl₂ (Ne.symm hk)
  | none =>
    rw [getOrCreateIcon_fst_of_none h]
    have hbound := lookup_lt_nextIcon hWF₂ hl₂
    omega

/-- Counterexample to C3 as stated: the argument pairs `("A-B", "C")`
and `("A", "B-C")` differ, yet both concatenate to the cache key
`"A-B-C"`, so the second call returns the first call's cached instance
instead of a distinct one. -/
theorem icon_cache_key_collision :
    (("A-B", "C") : String × String) ≠ ("A", "B-C")
  ∧ (createOptimizedCombinedIcon "A" "B-C"
        (createOptimizedCombinedIcon "A-B" "C" initIconCache).2).1
      = (createOptimizedCombinedIcon "A-B" "C" initIconCache).1 := by
  refine ⟨by decide, by decide⟩

/-- Claim C3 (amended): calls with identical (dataset, color) arguments
return the same cached instance, with arbitrary other calls interleaved;
calls whose concatenated cache keys differ return distinct instances;
the same holds for the Sharawani variant.  (Distinct argument pairs with
equal concatenations collide — see the counterexample.) -/
theorem icon_cache_correct_amended :
    (∀ (s : IconCache) (d c : String) (ks : List String),
        (createOptimizedCombinedIcon d c
            (runIconCalls ks (createOptimizedCombinedIcon d c s).2)).1
          = (createOptimizedCombinedIcon d c s).1)
  ∧ (∀ (s : IconCache), IconCacheWF s → ∀ (d₁ c₁ d₂ c₂ : String) (ks : List String),
        combinedCacheKey d₁ c₁ ≠ combinedCacheKey d₂ c₂ →
        (createOptimizedCombinedIcon d₂ c₂
            (runIconCalls ks (createOptimizedCombinedIcon d₁ c₁ s).2)).1
          ≠ (createOptimizedCombinedIcon d₁ c₁ s).1)
  ∧ (∀ (s : IconCache) (l c : String) (ks : List String),
        (createOptimizedSharawaniIcon l c
            (runIconCalls ks (createOptimizedSharawaniIcon l c s).2)).1
          = (createOptimizedSharawaniIcon l c s).1)
  ∧ (∀ (s : IconCache), IconCacheWF s → ∀ (l₁ c₁ l₂ c₂ : String) (ks : List String),
        sharawaniCacheKey l₁ c₁ ≠ sharawaniCacheKey l₂ c₂ →
        (createOptimizedSharawaniIcon l₂ c₂
            (runIconCalls ks (createOptimizedSharawaniIcon l₁ c₁ s).2)).1
          ≠ (createOptimizedSharawaniIcon l₁ c₁ s).1) := by
  refine ⟨?_, ?_, ?_, ?_⟩
  · intro s d c ks
    exact getOrCreateIcon_stable (combinedCacheKey d c) s ks
  · intro s hWF d₁ c₁ d₂ c₂ ks hk
    exact getOrCreateIcon_distinct hWF (Ne.symm (Ne.symm hk)) ks
  · intro s l c ks
    exact getOrCreateIcon_stable (sharawaniCacheKey l c) s ks
  · intro s hWF l₁ c₁ l₂ c₂ ks hk
    exact getOrCreateIcon_distinct hWF (Ne.symm (Ne.symm hk)) ks

/-- Witness for C3 (amended) at concrete calls against the initial
cache. -/
theorem icon_cache_correct_amended_witness :
    (createOptimizedCombinedIcon "HERA" "#28a745"
        (runIconCalls [] (createOptimizedCombinedIcon "HERA" "#28a745" initIconCache).2)).1
      = (createOptimizedCombinedIcon "HERA" "#28a745" initIconCache).1
  ∧ (createOptimizedCombinedIcon "Compost" "#dc3545"
        (runIconCalls [] (createOptimizedCombinedIcon "HERA" "#28a745" initIconCache).2)).1
      ≠ (createOptimizedCombinedIcon "HERA" "#28a745" initIconCache).1 :=
  ⟨icon_cache_correct_amended.1 initIconCache "HERA" "#28a745" [],
   icon_cache_correct_amended.2.1 initIconCache initIconCache_WF
     "HERA" "#28a745" "Compost" "#dc3545" [] (by decide)⟩

/-! ## Helper lemmas about the orchestrator state -/

theorem contains_of_mem {κ : Type} [BEq κ] [LawfulBEq κ] {a : κ} {l : List κ}
    (h : a ∈ l) : l.contains a = true := by
  induction l with
  | nil => cases h
  | cons b t ih =>
    rw [List.contains_cons]
    rcases List.mem_cons.mp h with h | h
    · subst h; simp
    · rw [ih h]; simp

theorem showLayer_loadedLayers (n : String) (s : MapState) :
    (showLayer n s).loadedLayers = s.loadedLayers := by
  unfold showLayer
  cases h : s.layerGroups.lookup n with
  | none => rfl
  | some g => by_cases hc : g ∈ s.mapAttached <;> simp [hc]

theorem showLayer_idem (n : String) (s : MapState) :
    showLayer n (showLayer n s) = showLayer n s := by
  unfold showLayer
  cases h : s.layerGroups.lookup n with
  | none => simp [h]
  | some g =>
    by_cases hc : g ∈ s.mapAttached
    · simp [h, hc]
    · simp [h, hc]

theorem showSharawaniLayer_sharawaniLayers (n : String) (s : MapState) :
    (showSharawaniLayer n s).sharawaniLayers = s.sharawaniLayers := by
  unfold showSharawaniLayer
  cases h : s.sharawaniLayers.lookup n with
  | none => rfl
  | some g => by_cases hc : g ∈ s.mapAttached <;> simp [hc]

theorem showSharawaniLayer_idem (n : String) (s : MapState) :
    showSharawaniLayer n (showSharawaniLayer n s) = showSharawaniLayer n s := by
  unfold showSharawaniLayer
  cases h : s.sharawaniLayers.lookup n with
  | none => simp [h]
  | some g =>
    by_cases hc : g ∈ s.mapAttached
    · simp [h, hc]
    · simp [h, hc]

theorem loadLayer_loaded {n : String} {g : GeoJsonObj} {s : MapState}
    (h : (s.loadedLayers.lookup n).isSome) : loadLayer n g s = showLayer n s := by
  unfold loadLayer
  rw [if_pos h]

theorem loadLayer_not_loaded {n : String} {g : GeoJsonObj} {s : MapState}
    (h : ¬(s.loadedLayers.lookup n).isSome) :
    loadLayer n g s = { s with
      fetchCount := s.fetchCount + 1,
      nextGroup := s.nextGroup + 1,
      loadedLayers := mapSet s.loadedLayers n g,
      layerGroups := mapSet s.layerGroups n s.nextGroup,
      groupMarkers := mapSet s.groupMarkers s.nextGroup g.features.length,
      mapAttached := s.nextGroup :: s.mapAttached } := by
  unfold loadLayer
  rw [if_neg h]

theorem loadLayer_idem (n : String) (g : GeoJsonObj) (s : MapState) :
    loadLayer n g (loadLayer n g s) = loadLayer n g s := by
  by_cases h : (s.loadedLayers.lookup n).isSome
  · rw [loadLayer_loaded h,
      loadLayer_loaded (by rw [showLayer_loadedLayers]; exact h)]
    exact showLayer_idem n s
  · rw [loadLayer_not_loaded h]
    have hsome : ((mapSet s.loadedLayers n g).lookup n).isSome := by
      rw [lookup_mapSet_self]; rfl
    rw [loadLayer_loaded hsome]
    unfold showLayer
    simp [lookup_mapSet_self]

theorem loadSharawani_loaded {p4 : Bool} {t : Coord → Option Coord} {n : String}
    {gj : GeoJsonObj} {s : MapState} (h : (s.sharawaniLayers.lookup n).isSome) :
    loadSharawaniLayer p4 t n gj s = showSharawaniLayer n s := by
  unfold loadSharawaniLayer
  rw [if_pos h]

theorem withClustering_registered {n : String} {fs : List Feature} (s : MapState)
    (hp : 0 < (fs.filter fun f => f.geometry.isPoint).length) :
    ∃ gid, (loadSharawaniWithClustering n fs s).sharawaniLayers.lookup n = some gid
      ∧ gid ∈ (loadSharawaniWithClustering n fs s).mapAttached := by
  refine ⟨s.nextGroup, ?_, ?_⟩
  · unfold loadSharawaniWithClustering
    by_cases hpol : 0 < (fs.filter fun f => f.geometry.isPolygonal).length <;>
      simp [hp, hpol, lookup_mapSet_self]
  · unfold loadSharawaniWithClustering
    by_cases hpol : 0 < (fs.filter fun f => f.geometry.isPolygonal).length <;>
      simp [hp, hpol]

theorem regularLayer_registered (n : String) (fs : List Feature) (s : MapState) :
    (loadSharawaniAsRegularLayer n fs s).sharawaniLayers.lookup n = some s.nextGroup
      ∧ s.nextGroup ∈ (loadSharawaniAsRegularLayer n fs s).mapAttached := by
  constructor
  · unfold loadSharawaniAsRegularLayer
    simp [lookup_mapSet_self]
  · unfold loadSharawaniAsRegularLayer
    simp

theorem show_of_registered {n : String} {s : MapState} {gid : ℕ}
    (h1 : s.sharawaniLayers.lookup n = some gid)
    (h2 : gid ∈ s.mapAttached) :
    showSharawaniLayer n s = s := by
  unfold showSharawaniLayer
  rw [h1]
  simp [h2]

theorem loadSharawaniLayer_idem (p4 : Bool) (t : Coord → Option Coord) (n : String)
    (gj : GeoJsonObj) (s : MapState) (fs : List Feature)
    (hfs : transformAllFeatures p4 t gj.features = some fs)
    (hp : 0 < (fs.filter fun f => f.geometry.isPoint).length
          ∨ shouldUseClustering n ⟨fs⟩ = false) :
    loadSharawaniLayer p4 t n gj (loadSharawaniLayer p4 t n gj s)
      = loadSharawaniLayer p4 t n gj s := by
  by_cases h : (s.sharawaniLayers.lookup n).isSome
  · rw [loadSharawani_loaded h,
      loadSharawani_loaded (by rw [showSharawaniLayer_sharawaniLayers]; exact h)]
    exact showSharawaniLayer_idem n s
  · have hfirst : loadSharawaniLayer p4 t n gj s
        = (if shouldUseClustering n ⟨fs⟩ then
            loadSharawaniWithClustering n fs { s with fetchCount := s.fetchCount + 1 }
          else
            loadSharawaniAsRegularLayer n fs { s with fetchCount := s.fetchCount + 1 }) := by
      unfold loadSharawaniLayer
      rw [if_neg h, hfs]
    rw [hfirst]
    by_cases hc : shouldUseClustering n ⟨fs⟩ = true
    · rw [if_pos hc]
      have hp' : 0 < (fs.filter fun f => f.geometry.isPoint).length := by
        rcases hp with hp | hp
        · exact hp
        · rw [hc] at hp; cases hp
      obtain ⟨gid, hg1, hg2⟩ :=
        @withClustering_registered n fs { s with fetchCount := s.fetchCount + 1 } hp'
      rw [loadSharawani_loaded (by rw [hg1]; rfl)]
      exact show_of_registered hg1 hg2
    · rw [if_neg hc]
      obtain ⟨hg1, hg2⟩ := regularLayer_registered n fs { s with fetchCount := s.fetchCount + 1 }
      rw [loadSharawani_loaded (by rw [hg1]; rfl)]
      exact show_of_registered hg1 hg2

/-- Counterexample to C6 as stated: `loadCombinedDataset` has no
already-loaded guard, so a second load request does not merely re-attach
the existing render group — it rebuilds a fresh cluster group, attaches
it on top of the old one, and overwrites the registry binding. -/
theorem combined_load_not_idempotent :
    loadCombinedDataset "HERA" [{ name := "p", latitude := 36, longitude := 44 }]
        (loadCombinedDataset "HERA" [{ name := "p", latitude := 36, longitude := 44 }]
          initMapState)
      ≠ loadCombinedDataset "HERA" [{ name := "p", latitude := 36, longitude := 44 }]
          initMapState := by
  decide

/-- Claim C6 (amended): double-toggle-on is equivalent to a single
toggle for administrative layers (`loadLayer`) and for Sharawani layers
(`loadSharawaniLayer`, whenever the transformed collection keeps at
least one Point feature or takes the regular-layer path); but every
`loadCombinedDataset` call attaches one more freshly built cluster
group instead of re-attaching the existing one. -/
theorem toggle_idempotence_amended :
    (∀ (layerName : String) (geojson : GeoJsonObj) (s : MapState),
        loadLayer layerName geojson (loadLayer layerName geojson s)
          = loadLayer layerName geojson s)
  ∧ (∀ (p4 : Bool) (t : Coord → Option Coord) (layerName : String)
        (geojson : GeoJsonObj) (s : MapState) (fs : List Feature),
        transformAllFeatures p4 t geojson.features = some fs →
        (0 < (fs.filter fun f => f.geometry.isPoint).length
          ∨ shouldUseClustering layerName ⟨fs⟩ = false) →
        loadSharawaniLayer p4 t layerName geojson
            (loadSharawaniLayer p4 t layerName geojson s)
          = loadSharawaniLayer p4 t layerName geojson s)
  ∧ (∀ (datasetName : String) (dataPoints : List DataPoint) (s : MapState),
        (loadCombinedDataset datasetName dataPoints s).mapAttached.length
          = s.mapAttached.length + 1) := by
  refine ⟨loadLayer_idem, ?_, ?_⟩
  · intro p4 t n gj s fs hfs hp
    exact loadSharawaniLayer_idem p4 t n gj s fs hfs hp
  · intro n pts s
    unfold loadCombinedDataset
    simp

/-- Witness for C6 (amended) at concrete loads from the initial state. -/
theorem toggle_idempotence_amended_witness :
    loadLayer "governorates" ⟨[⟨.point (45, 33), []⟩]⟩
        (loadLayer "governorates" ⟨[⟨.point (45, 33), []⟩]⟩ initMapState)
      = loadLayer "governorates" ⟨[⟨.point (45, 33), []⟩]⟩ initMapState
  ∧ loadSharawaniLayer false tNone "education" ⟨[⟨.point (45, 33), []⟩]⟩
        (loadSharawaniLayer false tNone "education" ⟨[⟨.point (45, 33), []⟩]⟩ initMapState)
      = loadSharawaniLayer false tNone "education" ⟨[⟨.point (45, 33), []⟩]⟩ initMapState :=
  ⟨toggle_idempotence_amended.1 "governorates" ⟨[⟨.point (45, 33), []⟩]⟩ initMapState,
   toggle_idempotence_amended.2.1 false tNone "education" ⟨[⟨.point (45, 33), []⟩]⟩
     initMapState [⟨.point (45, 33), []⟩] (by decide) (Or.inl (by decide))⟩

/-- Claim C9: hiding a dataset that was never loaded (its name absent
from the corresponding layer registry, as during an in-flight fetch) is
a total no-op for all three hide operations. -/
theorem hide_never_loaded_noop :
    (∀ (layerName : String) (s : MapState),
        s.layerGroups.lookup layerName = none → hideLayer layerName s = s)
  ∧ (∀ (layerName : String) (s : MapState),
        s.sharawaniLayers.lookup layerName = none → hideSharawaniLayer layerName s = s)
  ∧ (∀ (datasetName : String) (s : MapState),
        s.combinedLayers.lookup datasetName = none → hideCombinedDataset datasetName s = s) := by
  refine ⟨?_, ?_, ?_⟩
  · intro n s h
    unfold hideLayer
    rw [h]
  · intro n s h
    unfold hideSharawaniLayer
    rw [h]
  · intro n s h
    unfold hideCombinedDataset
    rw [h]

/-- Witness for C9 on the empty initial state. -/
theorem hide_never_loaded_noop_witness :
    hideLayer "districts" initMapState = initMapState
  ∧ hideSharawaniLayer "education" initMapState = initMapState
  ∧ hideCombinedDataset "HERA" initMapState = initMapState :=
  ⟨hide_never_loaded_noop.1 "districts" initMapState rfl,
   hide_never_loaded_noop.2.1 "education" initMapState rfl,
   hide_never_loaded_noop.2.2 "HERA" initMapState rfl⟩

/-- Claim C10: `transformSharawaniCoordinates` works on a JSON-round-trip
clone: the returned reference is the freshly allocated clone, and every
pre-existing object of the store — in particular the caller's input with
all its features and coordinate arrays — is unchanged. -/
theorem transform_no_input_mutation :
    ∀ (p4 : Bool) (t : Coord → Option Coord) (s : Store) (r : ℕ) (s' : Store) (r' : ℕ),
      r < s.objs.length →
      transformSharawaniCoordinates p4 t s r = some (s', r') →
      ∃ fs, transformAllFeatures p4 t (s.objs.getD r ⟨[]⟩).features = some fs
        ∧ s' = ⟨s.objs ++ [⟨fs⟩]⟩
        ∧ r' = s.objs.length
        ∧ ∀ j, j < s.objs.length → s'.objs[j]? = s.objs[j]? := by
  intro p4 t s r s' r' hr h
  unfold transformSharawaniCoordinates at h
  simp only [] at h
  cases hfs : transformAllFeatures p4 t (s.objs.getD r ⟨[]⟩).features with
  | none => rw [hfs] at h; simp at h
  | some fs =>
    rw [hfs] at h
    simp only [Option.map_some', Option.some.injEq, Prod.mk.injEq] at h
    obtain ⟨hs, hrr⟩ := h
    rw [set_append_length] at hs
    refine ⟨fs, rfl, hs.symm, hrr.symm, ?_⟩
    intro j hj
    rw [← hs]
    exact List.getElem?_append_left hj

/-- The concrete one-object store used as the C10 witness input. -/
def c10Store : Store := ⟨[⟨[⟨.point (45, 33), []⟩]⟩]⟩

/-- The store after the C10 witness call: the original object plus its
(unchanged, already-geographic) clone. -/
def c10Result : Store := ⟨[⟨[⟨.point (45, 33), []⟩]⟩, ⟨[⟨.point (45, 33), []⟩]⟩]⟩

/-- Witness for C10 at a concrete store and reference. -/
theorem transform_no_input_mutation_witness :
    ∃ fs, transformAllFeatures false tNone (c10Store.objs.getD 0 ⟨[]⟩).features = some fs
      ∧ c10Result = ⟨c10Store.objs ++ [⟨fs⟩]⟩
      ∧ (1 : ℕ) = c10Store.objs.length
      ∧ ∀ j, j < c10Store.objs.length → c10Result.objs[j]? = c10Store.objs[j]? :=
  transform_no_input_mutation false tNone c10Store 0 c10Result 1 (by decide) (by decide)

end MapAllData
